import Mathlib

/-!
Verification development for the guarded multi-stage filter pipeline of
`src/filterer.py` (function `do_file` and the control-first orchestration
loop in `main`).

Modelling conventions, chosen to mirror the Python/pandas/numpy source:

* A cell value is a `PyFloat`: either an exact rational number or `nan`.
  Python float comparisons involving `nan` are `False`, and numpy's
  `mean`/`std`/`percentile` return `nan` when the data contains `nan`
  (and `mean`/`std` of an empty column are `nan`); `np.percentile` of an
  empty column raises `IndexError`.  We use exact rationals instead of
  IEEE doubles; none of the claims below depends on rounding.
* `numpy.std` is the population standard deviation, i.e. the square root
  of `varQ`.  The square root of a rational is irrational in general, so
  the embedding abstracts the square-root implementation as a function
  `ℚ → ℚ` carried in the configuration (`Config.sqrt`); every theorem
  below is proved for an arbitrary such function, and no claim depends
  on the values the square root takes.
* Python exceptions are modelled with `Except PyExc`; `try/except
  RuntimeError` blocks catch exactly `PyExc.runtimeError`.
* A pandas frame is a `Table`: a list of column names plus a list of
  rows, each row carrying its original integer index (the pandas index
  label) and its list of cells.  Rows are assumed to be aligned with the
  column list, as pandas guarantees.  The input `Table` handed to
  `do_file` is the frame after the unconditional drop of all columns
  other than the seven retained metrics and `TRACK_DURATION`
  (`filterer.py` lines 221-227): the dropped columns play no further
  role.  The drop of the three metadata rows with labels 0,1,2
  (line 237) is modelled as dropping the first three rows, matching the
  sequential index produced by `read_csv`; a frame with fewer than three
  rows raises `KeyError` there, which we also model.
-/

namespace Filterer

/-- Decidable equality of `Except` results, used to settle concrete
runs by `decide`. -/
instance instDecEqExcept {ε α : Type} [DecidableEq ε] [DecidableEq α] :
    DecidableEq (Except ε α)
  | .error e, .error f =>
    if h : e = f then .isTrue (by rw [h])
    else .isFalse (by intro hc; cases hc; exact h rfl)
  | .error _, .ok _ => .isFalse (by intro hc; cases hc)
  | .ok _, .error _ => .isFalse (by intro hc; cases hc)
  | .ok a, .ok b =>
    if h : a = b then .isTrue (by rw [h])
    else .isFalse (by intro hc; cases hc; exact h rfl)

/-- Python float value: an exact rational or `nan`. -/
inductive PyFloat where
  | num (q : ℚ)
  | nan
deriving DecidableEq, Repr

namespace PyFloat

/-- The Python test `float(x) != float(x)`, i.e. `x` is `nan`. -/
def isNan : PyFloat → Bool
  | nan => true
  | num _ => false

/-- Python `+` on floats; `nan` propagates. -/
def add : PyFloat → PyFloat → PyFloat
  | num a, num b => num (a + b)
  | _, _ => nan

/-- Python `-` on floats; `nan` propagates. -/
def sub : PyFloat → PyFloat → PyFloat
  | num a, num b => num (a - b)
  | _, _ => nan

/-- Python `*` on floats; `nan` propagates. -/
def mul : PyFloat → PyFloat → PyFloat
  | num a, num b => num (a * b)
  | _, _ => nan

/-- Python `<` on floats; any comparison with `nan` is `False`. -/
def lt : PyFloat → PyFloat → Bool
  | num a, num b => decide (a < b)
  | _, _ => false

/-- Python `>` on floats; any comparison with `nan` is `False`. -/
def gt : PyFloat → PyFloat → Bool
  | num a, num b => decide (b < a)
  | _, _ => false

/-- Python `==` on floats; `nan` is equal to nothing, itself included. -/
def beq : PyFloat → PyFloat → Bool
  | num a, num b => decide (a = b)
  | _, _ => false

end PyFloat

/-- Python exception classes that can escape the modelled code. -/
inductive PyExc where
  | runtimeError
  | keyError
  | indexError
  | assertionError
  | fileNotFoundError
  | valueError
deriving DecidableEq, Repr

/-- The column names retained by `filterer.py` (its `col_names` plus the
transient `TRACK_DURATION`). -/
inductive ColName where
  | TRACK_DISPLACEMENT
  | TRACK_MEAN_SPEED
  | TRACK_MEDIAN_SPEED
  | TRACK_MEAN_QUALITY
  | TOTAL_DISTANCE_TRAVELED
  | MEAN_STRAIGHT_LINE_SPEED
  | LINEARITY_OF_FORWARD_PROGRESSION
  | TRACK_DURATION
deriving DecidableEq, Repr

/-- `col_names` from the source: the seven retained metric columns, in
their mandatory order. -/
def col_names : List ColName :=
  [.TRACK_DISPLACEMENT, .TRACK_MEAN_SPEED, .TRACK_MEDIAN_SPEED,
   .TRACK_MEAN_QUALITY, .TOTAL_DISTANCE_TRAVELED,
   .MEAN_STRAIGHT_LINE_SPEED, .LINEARITY_OF_FORWARD_PROGRESSION]

/-- One tracked particle: the pandas index label and the row's cells,
aligned with the table's column list. -/
structure Row where
  id : Nat
  cells : List PyFloat
deriving DecidableEq, Repr

/-- An in-memory pandas frame: column names and rows. -/
structure Table where
  cols : List ColName
  rows : List Row
deriving DecidableEq, Repr

/-- Position of a column name in the column list (pandas label lookup). -/
def colIndex (cols : List ColName) (c : ColName) : Option Nat :=
  cols.indexOf? c

/-- `row[1][c]`: cell of a row at a named column; `none` models the
`KeyError` pandas raises for a missing label. -/
def getCell (cols : List ColName) (c : ColName) (r : Row) : Option PyFloat :=
  (colIndex cols c).bind (fun i => r.cells.get? i)

/-- `csv[c]` as a float column; raises `KeyError` when the column is
absent. -/
def getColE (t : Table) (c : ColName) : Except PyExc (List PyFloat) :=
  match colIndex t.cols c with
  | none => .error .keyError
  | some i => .ok (t.rows.map (fun r => r.cells.getD i .nan))

/-- Column `i` of the table by position (`enumerate(csv.columns)`). -/
def colValsAt (t : Table) (i : Nat) : List PyFloat :=
  t.rows.map (fun r => r.cells.getD i .nan)

/-- Reason tags recorded in `dropped_row_indices`. -/
inductive DropReason where
  | DURATION_THRESHOLD
  | SPEED_THRESHOLD
  | DISPLACEMENT_THRESHOLD
  | LINEARITY_THRESHOLD
  | QUALITY_PERCENTILE
  | INTERNAL_STD_FILTERING
  | INTERNAL_IQR_FILTERING
deriving DecidableEq, Repr

/-- One entry of `dropped_row_indices`: row label, the row's
`MEAN_STRAIGHT_LINE_SPEED` value, and the reason tag. -/
structure DropRec where
  rowId : Nat
  sls : PyFloat
  reason : DropReason
deriving DecidableEq, Repr

/-- Extract exact rationals from a column; `none` when the column
contains a `nan` (numpy statistics then return `nan`). -/
def toQs : List PyFloat → Option (List ℚ)
  | [] => some []
  | .num q :: xs => (toQs xs).map (fun l => q :: l)
  | .nan :: _ => none

/-- Population mean of a rational list (0 on the empty list; callers
handle the empty case separately). -/
def meanQ (qs : List ℚ) : ℚ := qs.sum / qs.length

/-- Population variance of a rational list. -/
def varQ (qs : List ℚ) : ℚ :=
  ((qs.map (fun x => (x - meanQ qs) ^ 2)).sum) / qs.length

/-- `numpy.mean` over a float column: `nan` on an empty column or on a
column containing `nan`, the exact mean otherwise. -/
def np_mean (xs : List PyFloat) : PyFloat :=
  match toQs xs with
  | none => .nan
  | some qs => if qs = [] then .nan else .num (meanQ qs)

/-- `numpy.std` (population standard deviation) over a float column,
with the square-root implementation abstracted as `sqrt`. -/
def np_std (sqrt : ℚ → ℚ) (xs : List PyFloat) : PyFloat :=
  match toQs xs with
  | none => .nan
  | some qs => if qs = [] then .nan else .num (sqrt (varQ qs))

/-- Insert into a sorted rational list (ascending). -/
def insertAsc (x : ℚ) : List ℚ → List ℚ
  | [] => [x]
  | y :: ys => if x ≤ y then x :: y :: ys else y :: insertAsc x ys

/-- Insertion sort, ascending (the sort underlying `numpy.percentile`). -/
def sortQ : List ℚ → List ℚ
  | [] => []
  | x :: xs => insertAsc x (sortQ xs)

/-- `numpy.percentile` with the default linear interpolation, on exact
rationals: the value at fractional position `q·(n−1)/100` of the sorted
data. -/
def percentileQ (qs : List ℚ) (q : ℚ) : ℚ :=
  let s := sortQ qs
  let n := s.length
  let pos : ℚ := q * (n - 1) / 100
  let i0 : Nat := pos.floor.toNat
  let frac : ℚ := pos - (i0 : ℚ)
  if i0 + 1 < n then
    s.getD i0 0 + frac * (s.getD (i0 + 1) 0 - s.getD i0 0)
  else s.getD (n - 1) 0

/-- `numpy.percentile` over a float column: `IndexError` on an empty
column, `nan` when the data contains `nan`. -/
def np_percentile (xs : List PyFloat) (q : ℚ) : Except PyExc PyFloat :=
  if xs = [] then .error .indexError
  else
    match toQs xs with
    | none => .ok .nan
    | some qs => .ok (.num (percentileQ qs q))

/-- Monadic map over a list in `Except` (Python list comprehensions
whose element expression can raise). -/
def exceptMap {α β : Type} (f : α → Except PyExc β) : List α → Except PyExc (List β)
  | [] => .ok []
  | x :: xs => do
    let y ← f x
    let ys ← exceptMap f xs
    .ok (y :: ys)

/-- The shared shape of every row-elimination loop in `do_file`: iterate
over the rows present at loop entry, decide each row independently, drop
it with a `DropRec` carrying its `MEAN_STRAIGHT_LINE_SPEED` value when
the predicate fires.  (Because `iterrows()` snapshots the frame when the
loop starts, in-place drops do not affect the iteration, so the loop is
a filter over the entry-state rows.) -/
def scanDrops (cols : List ColName) (reason : DropReason)
    (shouldDrop : Row → Except PyExc Bool) :
    List Row → Except PyExc (List Row × List DropRec)
  | [] => .ok ([], [])
  | r :: rs => do
    let b ← shouldDrop r
    if b then
      match getCell cols .MEAN_STRAIGHT_LINE_SPEED r with
      | none => .error .keyError
      | some v => do
        let (ks, ds) ← scanDrops cols reason shouldDrop rs
        .ok (ks, ⟨r.id, v, reason⟩ :: ds)
    else do
      let (ks, ds) ← scanDrops cols reason shouldDrop rs
      .ok (r :: ks, ds)

/-- Null filtering (lines 258-261): drop every row whose
`TRACK_DURATION` is `nan`; emits no `DropRec` and runs unconditionally.
Accessing the duration cell of a row raises `KeyError` when the column
is missing. -/
def nullFilter (cols : List ColName) : List Row → Except PyExc (List Row)
  | [] => .ok []
  | r :: rs =>
    match getCell cols .TRACK_DURATION r with
    | none => .error .keyError
    | some v => do
      let rest ← nullFilter cols rs
      .ok (if v.isNan then rest else r :: rest)

/-- Duration-stage predicate (lines 268-277): drop when the duration is
below the threshold or is `nan`. -/
def durationDrop (cols : List ColName) (duration_threshold : ℚ) (r : Row) :
    Except PyExc Bool :=
  match getCell cols .TRACK_DURATION r with
  | none => .error .keyError
  | some v => .ok (PyFloat.lt v (.num duration_threshold) || v.isNan)

/-- Speed-stage predicate (lines 302-309). -/
def speedDrop (cols : List ColName) (speed_threshold : PyFloat) (r : Row) :
    Except PyExc Bool :=
  match getCell cols .MEAN_STRAIGHT_LINE_SPEED r with
  | none => .error .keyError
  | some v => .ok (PyFloat.lt v speed_threshold)

/-- Displacement-stage predicate (lines 325-333). -/
def displacementDrop (cols : List ColName) (displacement_threshold : PyFloat)
    (r : Row) : Except PyExc Bool :=
  match getCell cols .TRACK_DISPLACEMENT r with
  | none => .error .keyError
  | some v => .ok (PyFloat.lt v displacement_threshold)

/-- Linearity-stage predicate (lines 350-358). -/
def linearityDrop (cols : List ColName) (linearity_threshold : PyFloat)
    (r : Row) : Except PyExc Bool :=
  match getCell cols .LINEARITY_OF_FORWARD_PROGRESSION r with
  | none => .error .keyError
  | some v => .ok (PyFloat.lt v linearity_threshold)

/-- Quality-percentile stage (lines 373-386): the threshold is the
`q`-th percentile of the quality column of the table as it stands at
stage entry, computed once; then each row below it is dropped. -/
def qualityStage (q : ℚ) (t : Table) :
    Except PyExc (List Row × List DropRec) := do
  let col ← getColE t .TRACK_MEAN_QUALITY
  let thr ← np_percentile col q
  scanDrops t.cols .QUALITY_PERCENTILE
    (fun r =>
      match getCell t.cols .TRACK_MEAN_QUALITY r with
      | none => .error .keyError
      | some v => .ok (PyFloat.lt v thr)) t.rows

/-- Per-column std values of the std stage (lines 404-406): the standard
deviation of flagged columns, literal `0.0` for unflagged ones. -/
def std_std_values (sqrt : ℚ → ℚ) (flags : List Bool) (t : Table) :
    List PyFloat :=
  (List.range t.cols.length).map (fun i =>
    if flags.getD i false then np_std sqrt (colValsAt t i) else .num 0)

/-- Per-column means of the std stage (lines 409-411): the mean of
flagged columns, literal `0.0` for unflagged ones. -/
def std_mean_values (flags : List Bool) (t : Table) : List PyFloat :=
  (List.range t.cols.length).map (fun i =>
    if flags.getD i false then np_mean (colValsAt t i) else .num 0)

/-- The per-row verdict of the std stage's inner loop (lines 414-433):
scan the columns in order; drop on the first column whose value is below
`mean − 2·std`, or — only when `speed_threshold == 0.0` and the column
is flagged — above `mean + 2·std`. -/
def stdRowDrop (speed_threshold : PyFloat) :
    List PyFloat → List PyFloat → List PyFloat → List Bool → Bool
  | x :: xs, m :: ms, s :: ss, f :: fs =>
    if PyFloat.lt x (m.sub ((PyFloat.num 2).mul s)) then true
    else if (PyFloat.beq speed_threshold (.num 0) && f)
        && PyFloat.gt x (m.add ((PyFloat.num 2).mul s)) then true
    else stdRowDrop speed_threshold xs ms ss fs
  | _, _, _, _ => false

/-- The std stage (lines 402-433).  The Python comprehensions index
`std_drop_flags[i]` for every column, so a flag list shorter than the
column list raises `IndexError`. -/
def stdStage (sqrt : ℚ → ℚ) (flags : List Bool) (speed_threshold : PyFloat)
    (t : Table) : Except PyExc (List Row × List DropRec) :=
  if flags.length < t.cols.length then .error .indexError
  else
    scanDrops t.cols .INTERNAL_STD_FILTERING
      (fun r => .ok (stdRowDrop speed_threshold r.cells
        (std_mean_values flags t) (std_std_values sqrt flags t) flags)) t.rows

/-- One entry of the IQR stage's `iqr_values` (lines 454-458):
`Q3 − Q1` of a flagged column, `0.0` otherwise; `np.percentile` raises
`IndexError` on an empty column. -/
def iqrValue (flags : List Bool) (t : Table) (i : Nat) :
    Except PyExc PyFloat :=
  if flags.getD i false then do
    let q1 ← np_percentile (colValsAt t i) 25
    let q3 ← np_percentile (colValsAt t i) 75
    .ok (q3.sub q1)
  else .ok (.num 0)

/-- The IQR stage's `mean_values` (lines 461-463 of the source).  The
source comprehension is `[mean(csv[col_name]...) if iqr_drop_flags[i]
else 0.0 for col_name in csv.columns]`: it does NOT rebind `i`, so `i`
keeps the final value of the preceding `enumerate` loop (the index of
the last column) and gates every entry by the LAST column's flag. -/
def iqr_mean_values (flags : List Bool) (t : Table) : List PyFloat :=
  (List.range t.cols.length).map (fun i =>
    if flags.getD (t.cols.length - 1) false then np_mean (colValsAt t i)
    else .num 0)

/-- The per-row verdict of the IQR stage's inner loop (lines 466-485):
like `stdRowDrop` with bound `1.5 × IQR`. -/
def iqrRowDrop (speed_threshold : PyFloat) :
    List PyFloat → List PyFloat → List PyFloat → List Bool → Bool
  | x :: xs, m :: ms, s :: ss, f :: fs =>
    if PyFloat.lt x (m.sub ((PyFloat.num (3 / 2)).mul s)) then true
    else if (PyFloat.beq speed_threshold (.num 0) && f)
        && PyFloat.gt x (m.add ((PyFloat.num (3 / 2)).mul s)) then true
    else iqrRowDrop speed_threshold xs ms ss fs
  | _, _, _, _ => false

/-- The IQR stage's filtering body (lines 453-485); `do_file` only runs
it when the flag list's length equals the number of columns (line 451),
so unlike the std stage it cannot raise on the flags themselves. -/
def iqrStage (flags : List Bool) (speed_threshold : PyFloat) (t : Table) :
    Except PyExc (List Row × List DropRec) := do
  let iqr_values ← exceptMap (iqrValue flags t) (List.range t.cols.length)
  scanDrops t.cols .INTERNAL_IQR_FILTERING
    (fun r => .ok (iqrRowDrop speed_threshold r.cells
      (iqr_mean_values flags t) iqr_values flags)) t.rows

/-- The overfiltering guard (the `if csv.shape[0] == 0: raise … except
RuntimeError: csv = backup.copy()` pattern): keep the stage result
unless it has no rows, in which case restore the given snapshot. -/
def guard (backup cur : Table) : Table :=
  if cur.rows = [] then backup else cur

/-- Line 290: drop the `TRACK_DURATION` column (raises `KeyError` when
it is absent, `pandas.drop`'s default). -/
def dropDurCol (t : Table) : Except PyExc Table :=
  match colIndex t.cols .TRACK_DURATION with
  | none => .error .keyError
  | some i =>
    .ok ⟨t.cols.eraseIdx i, t.rows.map (fun r => ⟨r.id, r.cells.eraseIdx i⟩)⟩

/-- The column-order assertion walk of lines 229-234: every retained
column other than `TRACK_DURATION` must match `col_names` positionally.
(The walk only compares as far as the columns present, i.e. it checks a
prefix; the exact-equality assertion comes later, at line 291.) -/
def checkCols (cols : List ColName) : Bool :=
  (cols.filter (fun c => !(c == .TRACK_DURATION))).isPrefixOf col_names

/-- The configuration surface of `filterer.py` consumed by `do_file` and
`main` (module-level settings).  `sqrt` abstracts the square root used
by `numpy.std`; see the header note. -/
structure Config where
  do_duration_thresh : Bool
  duration_threshold : ℚ
  do_speed_thresh : Bool
  do_displacement_thresh : Bool
  do_linearity_thresh : Bool
  do_quality_percentile_filter : Bool
  quality_percentile_filter : ℚ
  std_drop_flags : Option (List Bool)
  iqr_drop_flags : Option (List Bool)
  brownian_multiplier : ℚ
  do_speed_thresh_fallback : Bool
  brownian_speed_threshold_fallback : ℚ
  sqrt : ℚ → ℚ

/-- `conversion`: pixels/frame to um/s. -/
def conversion : ℚ := 4 * (32 / 100)

/-- The filter pipeline of `do_file`, lines 250-500: null filtering,
then the guarded stages duration, speed, displacement, linearity,
quality percentile, std, IQR.  Each guarded block takes a fresh snapshot
(`backup = csv.copy(deep=True)`) before running — EXCEPT the speed block
(lines 299-319), which takes none and therefore reverts to the snapshot
taken before the duration stage (line 265), a snapshot that still
carries the `TRACK_DURATION` column.  Returns the final table and the
accumulated `dropped_row_indices`. -/
def filter_pipeline (cfg : Config) (displacement_threshold speed_threshold
    linearity_threshold : PyFloat) (t : Table) :
    Except PyExc (Table × List DropRec) := do
  let rows1 ← nullFilter t.cols t.rows
  let backup1 : Table := ⟨t.cols, rows1⟩
  let (dRows, d1) ←
    if cfg.do_duration_thresh then
      scanDrops t.cols .DURATION_THRESHOLD
        (durationDrop t.cols cfg.duration_threshold) rows1
    else .ok (rows1, [])
  let t2 := guard backup1 ⟨t.cols, dRows⟩
  let t3 ← dropDurCol t2
  if t3.cols ≠ col_names then .error .assertionError
  else do
    let (sRows, d2) ←
      if cfg.do_speed_thresh then
        scanDrops t3.cols .SPEED_THRESHOLD
          (speedDrop t3.cols speed_threshold) t3.rows
      else .ok (t3.rows, [])
    let t4 := guard backup1 ⟨t3.cols, sRows⟩
    let backup2 := t4
    let (dispRows, d3) ←
      if cfg.do_displacement_thresh then
        scanDrops t4.cols .DISPLACEMENT_THRESHOLD
          (displacementDrop t4.cols displacement_threshold) t4.rows
      else .ok (t4.rows, [])
    let t5 := guard backup2 ⟨t4.cols, dispRows⟩
    let backup3 := t5
    let (linRows, d4) ←
      if cfg.do_linearity_thresh then
        scanDrops t5.cols .LINEARITY_THRESHOLD
          (linearityDrop t5.cols linearity_threshold) t5.rows
      else .ok (t5.rows, [])
    let t6 := guard backup3 ⟨t5.cols, linRows⟩
    let backup4 := t6
    let (qRows, d5) ←
      if cfg.do_quality_percentile_filter then
        qualityStage cfg.quality_percentile_filter t6
      else .ok (t6.rows, [])
    let t7 := guard backup4 ⟨t6.cols, qRows⟩
    let backup5 := t7
    let (stdRows, d6) ←
      match cfg.std_drop_flags with
      | some fs => stdStage cfg.sqrt fs speed_threshold t7
      | none => .ok (t7.rows, [])
    let t8 := guard backup5 ⟨t7.cols, stdRows⟩
    let backup6 := t8
    let (iRows, d7) ←
      match cfg.iqr_drop_flags with
      | some fs =>
        if fs.length = t8.cols.length then iqrStage fs speed_threshold t8
        else .ok (t8.rows, [])
      | none => .ok (t8.rows, [])
    let t9 := guard backup6 ⟨t8.cols, iRows⟩
    .ok (t9, d1 ++ d2 ++ d3 ++ d4 ++ d5 ++ d6 ++ d7)

/-- The summary computation of lines 504-527: per-column means and
population standard deviations over the final table; when no rows
remain, every `output_data` entry is overwritten with `None` — the loop
at lines 516-519 touches only `output_data`, not `output_std` — and the
row counts (slots 7 and 8) and the unit-converted speed (slot 9) are
then written on top. -/
def summarize (cfg : Config) (t : Table) (initial_num_rows : Nat) :
    Except PyExc (List (Option PyFloat) × List (Option PyFloat)) := do
  let final_num_rows := t.rows.length
  let means ← exceptMap (fun c => do
    let col ← getColE t c
    .ok (np_mean col)) col_names
  let stds ← exceptMap (fun c => do
    let col ← getColE t c
    .ok (np_std cfg.sqrt col)) col_names
  let output_data0 : List (Option PyFloat) :=
    means.map some ++ [some (.num 0), some (.num 0), some (.num 0)]
  let od1 := if final_num_rows = 0 then
    List.replicate 10 (none : Option PyFloat) else output_data0
  let od2 := (od1.set 7 (some (.num initial_num_rows))).set 8
    (some (.num final_num_rows))
  let slot9 : Option PyFloat :=
    match od2.getD 5 none with
    | none => none
    | some v => some (v.mul (.num conversion))
  .ok (od2.set 9 slot9, stds.map some)

/-- The observable outcome of one `do_file` call: the filtered table it
writes as `<name>.filtered.csv` (absent when the load failed), the
`output_data` and `output_std` rows it returns, and the accumulated
drop diagnostics. -/
structure DoFileResult where
  table : Option Table
  output_data : List (Option PyFloat)
  output_std : List (Option PyFloat)
  drops : List DropRec
deriving DecidableEq, Repr

/-- `do_file`.  The input is the result of `pd.read_csv` (already
restricted to the retained columns, see the header note): an exception
there is caught only if it is a `RuntimeError` (lines 213-219), in
which case a summary of `None`s — 9 data entries and 7 std entries — is
returned.  Then: column-order assertion, drop of the three metadata
rows, `initial_num_rows`, the filter pipeline, and the summary. -/
def do_file (cfg : Config) (input : Except PyExc Table)
    (displacement_threshold speed_threshold linearity_threshold : PyFloat) :
    Except PyExc DoFileResult :=
  match input with
  | .error e =>
    if e = .runtimeError then
      .ok ⟨none, List.replicate 9 none, List.replicate 7 none, []⟩
    else .error e
  | .ok raw =>
    if !checkCols raw.cols then .error .assertionError
    else if raw.rows.length < 3 then .error .keyError
    else do
      let rows0 := raw.rows.drop 3
      let initial_num_rows := rows0.length
      let (t9, drops) ← filter_pipeline cfg displacement_threshold
        speed_threshold linearity_threshold ⟨raw.cols, rows0⟩
      let (output_data, output_std) ← summarize cfg t9 initial_num_rows
      .ok ⟨some t9, output_data, output_std, drops⟩

/-- numpy storage of a summary row into the `zeros(...)` float arrays of
`main`: `None` becomes `nan`. -/
def store1 : Option PyFloat → PyFloat
  | none => .nan
  | some v => v

/-- Assignment `array[i] = row` into a fixed-width numpy float row:
broadcasting fails with `ValueError` unless the lengths agree. -/
def storeFixed (n : Nat) (xs : List (Option PyFloat)) :
    Except PyExc (List PyFloat) :=
  if xs.length = n then .ok (xs.map store1) else .error .valueError

/-- The mutable threshold globals of `filterer.py`, all `0.0` at start. -/
structure RunState where
  brownian_displacement_threshold : PyFloat
  brownian_speed_threshold : PyFloat
  brownian_linearity_threshold : PyFloat
deriving DecidableEq, Repr

/-- The per-file loop of `main` (lines 807-850).  Index 0 with a control
present: `do_file` is called with all three thresholds `0.0` inside a
`try` whose `except RuntimeError` records an all-`None` (stored as
`nan`) summary; afterwards the three baseline thresholds are derived
from the control's summary row.  Every other index calls `do_file` with
the current thresholds and has NO exception handler, so any exception
aborts the remaining conditions. -/
def runConditionsGo (cfg : Config) (has_control : Bool) :
    Nat → RunState → List (Except PyExc Table) →
    Except PyExc (List (List PyFloat × List PyFloat))
  | _, _, [] => .ok []
  | i, st, inp :: rest =>
    if i = 0 ∧ has_control then do
      let (row, stdRow) ←
        match do_file cfg inp (.num 0) (.num 0) (.num 0) with
        | .error e =>
          if e = .runtimeError then
            .ok (List.replicate 10 PyFloat.nan, List.replicate 7 PyFloat.nan)
          else .error e
        | .ok r => do
          let a ← storeFixed 10 r.output_data
          let b ← storeFixed 7 r.output_std
          .ok (a, b)
      let st2 : RunState :=
        ⟨row.getD 0 .nan,
         (row.getD 5 .nan).add
           ((PyFloat.num cfg.brownian_multiplier).mul (stdRow.getD 5 .nan)),
         row.getD 6 .nan⟩
      let rest2 ← runConditionsGo cfg has_control (i + 1) st2 rest
      .ok ((row, stdRow) :: rest2)
    else do
      let r ← do_file cfg inp st.brownian_displacement_threshold
        st.brownian_speed_threshold st.brownian_linearity_threshold
      let row ← storeFixed 10 r.output_data
      let stdRow ← storeFixed 7 r.output_std
      let st2 := if i = 0 ∧ cfg.do_speed_thresh_fallback then
        { st with brownian_speed_threshold :=
            PyFloat.num cfg.brownian_speed_threshold_fallback }
        else st
      let rest2 ← runConditionsGo cfg has_control (i + 1) st2 rest
      .ok ((row, stdRow) :: rest2)

/-- The condition runner: the loop of `main` started at index 0 with the
threshold globals at their initial value `0.0`. -/
def runConditions (cfg : Config) (has_control : Bool)
    (inputs : List (Except PyExc Table)) :
    Except PyExc (List (List PyFloat × List PyFloat)) :=
  runConditionsGo cfg has_control 0 ⟨.num 0, .num 0, .num 0⟩ inputs

/-! ### Concrete inputs used by the counterexamples and witnesses -/

/-- Column layout of a typical input file: the seven retained metrics
followed by `TRACK_DURATION`. -/
def cols8 : List ColName := col_names ++ [.TRACK_DURATION]

/-- A metadata/header row (the first three rows of a raw file; their
contents are discarded). -/
def hdr (i : Nat) : Row := ⟨i, List.replicate 8 (.num 0)⟩

/-- A data row over `cols8` with the given quality, straight-line speed
and duration, all other metrics `1`. -/
def mk8 (i : Nat) (q sls dur : PyFloat) : Row :=
  ⟨i, [.num 1, .num 1, .num 1, q, .num 1, sls, .num 1, dur]⟩

/-- A configuration with every filter disabled (and the abstract square
root instantiated by the zero function, which no claim depends on). -/
def cfgOff : Config :=
  { do_duration_thresh := false, duration_threshold := 65,
    do_speed_thresh := false, do_displacement_thresh := false,
    do_linearity_thresh := false, do_quality_percentile_filter := false,
    quality_percentile_filter := 50, std_drop_flags := none,
    iqr_drop_flags := none, brownian_multiplier := 0,
    do_speed_thresh_fallback := false,
    brownian_speed_threshold_fallback := 0, sqrt := fun _ => 0 }

/-- Duration and speed thresholding enabled (the defaults of
`filterer.py` enable both). -/
def cfgDurSpeed : Config :=
  { cfgOff with do_duration_thresh := true, do_speed_thresh := true }

/-- Speed thresholding and the quality-percentile filter enabled. -/
def cfgSpeedQuality : Config :=
  { cfgOff with
    do_speed_thresh := true
    do_quality_percentile_filter := true }

/-- A well-formed control file over `cols8` with one data row. -/
def ctlTable : Table := ⟨cols8, [hdr 0, hdr 1, hdr 2, mk8 3 (.num 1) (.num 1) (.num 100)]⟩

/-- A data row for the idempotence scenario: quality `q`, straight-line
speed `1`, duration `100`. -/
def c5row (i : Nat) (q : ℚ) : Row := mk8 i (.num q) (.num 1) (.num 100)

/-- Five-row table with qualities 1..5 (pipeline-level, no header rows). -/
def c5_input : Table :=
  ⟨cols8, [c5row 0 1, c5row 1 2, c5row 2 3, c5row 3 4, c5row 4 5]⟩

/-- What one pipeline pass leaves of `c5_input`: the speed stage wipes
the table (every straight-line speed is below the threshold 5) and is
reverted by the guard, then the quality stage drops the rows below the
median quality 3. -/
def c5_once : Table := ⟨cols8, [c5row 2 3, c5row 3 4, c5row 4 5]⟩

/-- What a second pipeline pass leaves of `c5_once`: the recomputed
median quality is now 4, so the row with quality 3 is dropped again. -/
def c5_twice : Table := ⟨cols8, [c5row 3 4, c5row 4 5]⟩

/-- Spec reading of the std stage's row verdict with the upper-bound
branch removed: drop exactly when some column's value is below
`mean − 2·std` (the treatment-condition behaviour the spec asserts). -/
def stdRowDropLower : List PyFloat → List PyFloat → List PyFloat → Bool
  | x :: xs, m :: ms, s :: ss =>
    if PyFloat.lt x (m.sub ((PyFloat.num 2).mul s)) then true
    else stdRowDropLower xs ms ss
  | _, _, _ => false

/-- Spec reading of the IQR stage's row verdict with the upper-bound
branch removed. -/
def iqrRowDropLower : List PyFloat → List PyFloat → List PyFloat → Bool
  | x :: xs, m :: ms, s :: ss =>
    if PyFloat.lt x (m.sub ((PyFloat.num (3 / 2)).mul s)) then true
    else iqrRowDropLower xs ms ss
  | _, _, _ => false

/-- A duration-less row over `col_names` with the given quality, all
other metrics `1`. -/
def qrow (i : Nat) (q : ℚ) : Row :=
  ⟨i, [.num 1, .num 1, .num 1, .num q, .num 1, .num 1, .num 1]⟩

/-- A two-row table over the seven metric columns with qualities 1, 3. -/
def qtab : Table := ⟨col_names, [qrow 0 1, qrow 1 3]⟩

/-- The `do_file` outcome for `ctlTable` with all filters off: one
surviving row of ones, unit means, zero standard deviations. -/
def ctlRes : DoFileResult :=
  ⟨some ⟨col_names, [⟨3, List.replicate 7 (.num 1)⟩]⟩,
   [some (.num 1), some (.num 1), some (.num 1), some (.num 1),
    some (.num 1), some (.num 1), some (.num 1), some (.num 1),
    some (.num 1), some (.num (32 / 25))],
   List.replicate 7 (some (.num 0)), []⟩

/-- The stored summary row of `ctlRes` (no `None` entries, so storage
is the identity on the payloads). -/
def ctlRow : List PyFloat :=
  [.num 1, .num 1, .num 1, .num 1, .num 1, .num 1, .num 1, .num 1,
   .num 1, .num (32 / 25)]

/-- The stored std row of `ctlRes`. -/
def ctlStd : List PyFloat := List.replicate 7 (.num 0)

/-! ### Helper lemmas -/

/-- Bind on a successful `Except` computation. -/
@[simp] theorem ok_bind {α β : Type} (a : α) (f : α → Except PyExc β) :
    (Except.ok a >>= f) = f a := rfl

/-- Bind on a failed `Except` computation. -/
@[simp] theorem error_bind {α β : Type} (e : PyExc)
    (f : α → Except PyExc β) :
    ((Except.error e : Except PyExc α) >>= f) = .error e := rfl

/-- Inversion of a successful `Except` bind. -/
theorem bind_eq_ok {α β : Type} {x : Except PyExc α}
    {f : α → Except PyExc β} {b : β} (h : (x >>= f) = .ok b) :
    ∃ a, x = .ok a ∧ f a = .ok b := by
  cases x with
  | ok a => exact ⟨a, rfl, h⟩
  | error e => exact absurd h (by simp)

/-- A `PyFloat` other than the number `0` fails the Python `== 0.0`
test (this includes `nan`, for which every `==` is `False`). -/
theorem beq_zero_of_ne {st : PyFloat} (h : st ≠ .num 0) :
    PyFloat.beq st (.num 0) = false := by
  cases st with
  | nan => rfl
  | num q =>
    simp only [PyFloat.beq, decide_eq_false_iff_not]
    intro hq
    exact h (by rw [hq])

/-- Rows kept by a `scanDrops` pass are exactly the input rows on which
the predicate returns `False`. -/
theorem scanDrops_mem {cols : List ColName} {reason : DropReason}
    {p : Row → Except PyExc Bool} {rows ks : List Row} {ds : List DropRec}
    (h : scanDrops cols reason p rows = .ok (ks, ds)) (r : Row) :
    r ∈ ks ↔ (r ∈ rows ∧ p r = .ok false) := by
  induction rows generalizing ks ds with
  | nil =>
    simp only [scanDrops] at h
    cases h
    simp
  | cons r0 rs ih =>
    simp only [scanDrops] at h
    cases hp : p r0 with
    | error e => rw [hp] at h; simp at h
    | ok b =>
      rw [hp] at h
      simp only [ok_bind] at h
      cases b with
      | true =>
        simp only [if_true] at h
        cases hg : getCell cols .MEAN_STRAIGHT_LINE_SPEED r0 with
        | none => rw [hg] at h; simp at h
        | some v =>
          rw [hg] at h
          cases hrec : scanDrops cols reason p rs with
          | error e => rw [hrec] at h; simp at h
          | ok pair =>
            obtain ⟨ks1, ds1⟩ := pair
            rw [hrec] at h
            simp only [ok_bind] at h
            cases h
            rw [ih hrec]
            constructor
            · exact fun hh => ⟨List.mem_cons_of_mem _ hh.1, hh.2⟩
            · rintro ⟨hmem, hpr⟩
              rcases List.mem_cons.mp hmem with heq | hmem2
              · subst heq; rw [hp] at hpr; cases hpr
              · exact ⟨hmem2, hpr⟩
      | false =>
        rw [if_neg Bool.false_ne_true] at h
        cases hrec : scanDrops cols reason p rs with
        | error e => rw [hrec] at h; simp at h
        | ok pair =>
          obtain ⟨ks1, ds1⟩ := pair
          rw [hrec] at h
          simp only [ok_bind] at h
          cases h
          constructor
          · intro hh
            rcases List.mem_cons.mp hh with heq | hmem2
            · subst heq; exact ⟨List.mem_cons_self _ _, hp⟩
            · have := (ih hrec).mp hmem2
              exact ⟨List.mem_cons_of_mem _ this.1, this.2⟩
          · rintro ⟨hmem, hpr⟩
            rcases List.mem_cons.mp hmem with heq | hmem2
            · subst heq; exact List.mem_cons_self _ _
            · exact List.mem_cons_of_mem _ ((ih hrec).mpr ⟨hmem2, hpr⟩)

/-- A `scanDrops` pass over rows that all pass the predicate keeps every
row and emits no drop record. -/
theorem scanDrops_all_keep {cols : List ColName} {reason : DropReason}
    {p : Row → Except PyExc Bool} {rows : List Row}
    (h : ∀ r ∈ rows, p r = .ok false) :
    scanDrops cols reason p rows = .ok (rows, []) := by
  induction rows with
  | nil => rfl
  | cons r0 rs ih =>
    simp only [scanDrops, h r0 (List.mem_cons_self _ _), ok_bind, if_false]
    rw [ih (fun r hr => h r (List.mem_cons_of_mem _ hr))]
    rfl

/-- Two `scanDrops` passes with pointwise-equal predicates agree. -/
theorem scanDrops_congr {cols : List ColName} {reason : DropReason}
    {p p' : Row → Except PyExc Bool} {rows : List Row}
    (h : ∀ r ∈ rows, p r = p' r) :
    scanDrops cols reason p rows = scanDrops cols reason p' rows := by
  induction rows with
  | nil => rfl
  | cons r0 rs ih =>
    simp only [scanDrops]
    rw [h r0 (List.mem_cons_self _ _),
      ih (fun r hr => h r (List.mem_cons_of_mem _ hr))]

/-! ### Claims -/

/-- C1: the claim states that whenever a stage empties the table, the
overfiltering guard restores exactly the state from immediately before
that stage, undoing nothing earlier.  The code violates this for the
speed stage: its `try` block (lines 299-319) never takes its own
snapshot, so it reverts to the snapshot taken before the DURATION stage
(line 265).  In this run the duration stage drops row 3 (duration 10 <
65); the speed stage then drops the remaining row 4 (speed 1 < 5) and
overfilters; the guard hands back BOTH rows — and the `TRACK_DURATION`
column — i.e. the pre-duration state, not the pre-speed state. -/
theorem c1_speed_guard_restores_preduration_snapshot :
    do_file cfgDurSpeed
      (.ok ⟨cols8, [hdr 0, hdr 1, hdr 2,
        mk8 3 (.num 1) (.num 1) (.num 10), mk8 4 (.num 1) (.num 1) (.num 100)]⟩)
      (.num 0) (.num 5) (.num 0) =
    .ok ⟨some ⟨cols8, [mk8 3 (.num 1) (.num 1) (.num 10),
                       mk8 4 (.num 1) (.num 1) (.num 100)]⟩,
         [some (.num 1), some (.num 1), some (.num 1), some (.num 1),
          some (.num 1), some (.num 1), some (.num 1), some (.num 2),
          some (.num 2), some (.num (32 / 25))],
         List.replicate 7 (some (.num 0)),
         [⟨3, .num 1, .DURATION_THRESHOLD⟩, ⟨4, .num 1, .SPEED_THRESHOLD⟩]⟩ := by
  with_unfolding_all decide

/-- C2: the claim states that the std stage's lower-bound test applies
only to flagged columns.  In the code the lower-bound comparison at
line 418 is not gated by `std_drop_flags[i]`; for an unflagged column
`mean_values[i]` and `std_values[i]` are the literal `0.0`, so the test
degenerates to `value < 0` and a negative value in an UNFLAGGED column
drops the row.  Here every flag is `False`, yet the row whose first cell
is `−1` is dropped with reason `INTERNAL_STD_FILTERING`. -/
theorem c2_std_stage_drops_on_unflagged_column :
    stdStage (fun _ => 0) (List.replicate 7 false) (.num 7)
      ⟨col_names,
       [⟨0, [.num (-1), .num 1, .num 1, .num 1, .num 1, .num 1, .num 1]⟩,
        ⟨1, List.replicate 7 (.num 1)⟩]⟩ =
    .ok ([⟨1, List.replicate 7 (.num 1)⟩],
         [⟨0, .num 1, .INTERNAL_STD_FILTERING⟩]) := by
  with_unfolding_all decide

/-- C5 counterexample: the full pipeline is not idempotent.  On
`c5_input` (with speed threshold 5 and the 50th-percentile quality
filter enabled) the first pass leaves the three rows with qualities
3, 4, 5; running the pipeline again on its own output recomputes the
quality percentile over the survivors (new median 4) and drops one
additional row. -/
theorem c5_second_run_drops_additional_rows :
    (∃ ds1 ds2,
      filter_pipeline cfgSpeedQuality (.num 0) (.num 5) (.num 0) c5_input =
        .ok (c5_once, ds1) ∧
      filter_pipeline cfgSpeedQuality (.num 0) (.num 5) (.num 0) c5_once =
        .ok (c5_twice, ds2) ∧ ds2 ≠ []) ∧
    c5_twice.rows.length < c5_once.rows.length := by
  refine ⟨⟨[⟨0, .num 1, .SPEED_THRESHOLD⟩, ⟨1, .num 1, .SPEED_THRESHOLD⟩,
            ⟨2, .num 1, .SPEED_THRESHOLD⟩, ⟨3, .num 1, .SPEED_THRESHOLD⟩,
            ⟨4, .num 1, .SPEED_THRESHOLD⟩, ⟨0, .num 1, .QUALITY_PERCENTILE⟩,
            ⟨1, .num 1, .QUALITY_PERCENTILE⟩],
           [⟨2, .num 1, .SPEED_THRESHOLD⟩, ⟨3, .num 1, .SPEED_THRESHOLD⟩,
            ⟨4, .num 1, .SPEED_THRESHOLD⟩, ⟨2, .num 1, .QUALITY_PERCENTILE⟩],
           ?_, ?_, ?_⟩, ?_⟩ <;> with_unfolding_all decide

/-- C7 counterexample: for a condition whose final table has zero rows,
the summary reports every MEAN as `None`, but the standard deviations
are NOT `None`: the `None`-overwriting loop (lines 516-519) touches only
`output_data`, so `output_std` keeps the `nan` that `numpy.std` returns
on an empty column. -/
theorem c7_stds_are_nan_not_none :
    (∃ od, summarize cfgOff ⟨col_names, []⟩ 5 =
      .ok (od, List.replicate 7 (some PyFloat.nan))) ∧
    List.replicate 7 (some PyFloat.nan) ≠
      List.replicate 7 (none : Option PyFloat) := by
  exact ⟨⟨_, rfl⟩, by decide⟩

/-- C8: the claim states that a read failure on one non-control
condition leaves the other conditions unaffected.  In the code,
`pd.read_csv` failures raise `FileNotFoundError`, which the
`except RuntimeError` of `do_file` (line 216) does not catch, and the
non-control branch of `main`'s loop (lines 834-847) has no handler at
all — so the exception aborts the whole run: here the third condition
is never processed and no summary list is produced. -/
theorem c8_noncontrol_read_failure_aborts_run :
    runConditions cfgOff true
      [.ok ctlTable, .error .fileNotFoundError, .ok ctlTable] =
    .error .fileNotFoundError := by
  with_unfolding_all decide

/-- C9 counterexample: a table containing exactly the seven required
metric columns but no `TRACK_DURATION` does NOT complete the per-file
analysis: the unconditional null-filtering loop (line 260) indexes the
missing `TRACK_DURATION` label and raises `KeyError`. -/
theorem c9_missing_duration_column_raises :
    do_file cfgOff
      (.ok ⟨col_names,
        [⟨0, List.replicate 7 (.num 0)⟩, ⟨1, List.replicate 7 (.num 0)⟩,
         ⟨2, List.replicate 7 (.num 0)⟩, ⟨3, List.replicate 7 (.num 1)⟩]⟩)
      (.num 0) (.num 0) (.num 0) = .error .keyError := by
  with_unfolding_all decide

/-- C3: for a nonzero (treatment) speed threshold the upper-bound
rejection branches of the std stage and of the IQR stage can never
fire: both row verdicts coincide with their lower-bound-only readings
(provided the flag list covers the mean/std lists, which the stages
guarantee), and consequently the whole std stage filters by the
lower-bound test alone.  The upper-bound branches are guarded by the
literal test `speed_threshold == 0.0`, true only for the control. -/
theorem c3_upper_bound_fires_only_for_control (st : PyFloat)
    (h : st ≠ PyFloat.num 0) :
    (∀ xs ms ss fs, ms.length ≤ fs.length →
      stdRowDrop st xs ms ss fs = stdRowDropLower xs ms ss) ∧
    (∀ xs ms ss fs, ms.length ≤ fs.length →
      iqrRowDrop st xs ms ss fs = iqrRowDropLower xs ms ss) ∧
    (∀ sqrt fs t, t.cols.length ≤ fs.length →
      stdStage sqrt fs st t =
        scanDrops t.cols .INTERNAL_STD_FILTERING
          (fun r => .ok (stdRowDropLower r.cells (std_mean_values fs t)
            (std_std_values sqrt fs t))) t.rows) := by
  have hstd : ∀ xs ms ss fs, ms.length ≤ fs.length →
      stdRowDrop st xs ms ss fs = stdRowDropLower xs ms ss := by
    intro xs
    induction xs with
    | nil => intro ms ss fs _; cases ms <;> cases ss <;> cases fs <;> rfl
    | cons x xs ih =>
      intro ms ss fs hlen
      cases ms with
      | nil => cases ss <;> cases fs <;> rfl
      | cons m ms =>
        cases ss with
        | nil => cases fs <;> rfl
        | cons s ss =>
          cases fs with
          | nil => simp at hlen
          | cons f fs =>
            simp only [stdRowDrop, stdRowDropLower, beq_zero_of_ne h,
              Bool.false_and, Bool.and_self_left, Bool.false_eq_true,
              if_false]
            rw [ih ms ss fs (Nat.le_of_succ_le_succ hlen)]
  have hiqr : ∀ xs ms ss fs, ms.length ≤ fs.length →
      iqrRowDrop st xs ms ss fs = iqrRowDropLower xs ms ss := by
    intro xs
    induction xs with
    | nil => intro ms ss fs _; cases ms <;> cases ss <;> cases fs <;> rfl
    | cons x xs ih =>
      intro ms ss fs hlen
      cases ms with
      | nil => cases ss <;> cases fs <;> rfl
      | cons m ms =>
        cases ss with
        | nil => cases fs <;> rfl
        | cons s ss =>
          cases fs with
          | nil => simp at hlen
          | cons f fs =>
            simp only [iqrRowDrop, iqrRowDropLower, beq_zero_of_ne h,
              Bool.false_and, Bool.and_self_left, Bool.false_eq_true,
              if_false]
            rw [ih ms ss fs (Nat.le_of_succ_le_succ hlen)]
  refine ⟨hstd, hiqr, ?_⟩
  intro sqrt fs t hlen
  rw [stdStage, if_neg (by omega)]
  refine scanDrops_congr (fun r _ => ?_)
  rw [hstd r.cells (std_mean_values fs t) (std_std_values sqrt fs t) fs]
  rw [std_mean_values, List.length_map, List.length_range]
  exact hlen

/-- C3 witness: a concrete treatment-condition verdict, obtained from
the theorem at speed threshold 1 with a value 9 far above
`mean + 2·std = 3` in a flagged column, which is left alone. -/
theorem c3_witness :
    PyFloat.num 1 ≠ PyFloat.num 0 ∧
    stdRowDrop (PyFloat.num 1) [PyFloat.num 9] [PyFloat.num 1]
        [PyFloat.num 1] [true] =
      stdRowDropLower [PyFloat.num 9] [PyFloat.num 1] [PyFloat.num 1] :=
  ⟨by decide,
   (c3_upper_bound_fires_only_for_control (PyFloat.num 1) (by decide)).1
     [PyFloat.num 9] [PyFloat.num 1] [PyFloat.num 1] [true] (by decide)⟩

/-- C6: within the quality-percentile, std and IQR stages every
threshold is a function of the table as it stands at stage entry and is
not recomputed while rows are dropped: whether a row survives the stage
is equivalent to a predicate built from entry-state statistics
(`np_percentile` of the entry quality column; `std_mean_values` /
`std_std_values` / `iqr_mean_values` / the `iqrValue` list of the entry
table) applied to that row alone — so dropping any row A cannot change
the threshold row B is evaluated against. -/
theorem c6_stage_thresholds_fixed_at_entry :
    (∀ (q : ℚ) (t : Table) (rs : List Row) (ds : List DropRec),
      qualityStage q t = .ok (rs, ds) →
      ∃ col thr, getColE t .TRACK_MEAN_QUALITY = .ok col ∧
        np_percentile col q = .ok thr ∧
        ∀ r, r ∈ rs ↔ (r ∈ t.rows ∧
          ∃ v, getCell t.cols .TRACK_MEAN_QUALITY r = some v ∧
            PyFloat.lt v thr = false)) ∧
    (∀ (sq : ℚ → ℚ) (fs : List Bool) (st : PyFloat) (t : Table)
        (rs : List Row) (ds : List DropRec),
      stdStage sq fs st t = .ok (rs, ds) →
      ∀ r, r ∈ rs ↔ (r ∈ t.rows ∧
        stdRowDrop st r.cells (std_mean_values fs t)
          (std_std_values sq fs t) fs = false)) ∧
    (∀ (fs : List Bool) (st : PyFloat) (t : Table)
        (rs : List Row) (ds : List DropRec),
      iqrStage fs st t = .ok (rs, ds) →
      ∃ ivs, exceptMap (iqrValue fs t) (List.range t.cols.length) =
          .ok ivs ∧
        ∀ r, r ∈ rs ↔ (r ∈ t.rows ∧
          iqrRowDrop st r.cells (iqr_mean_values fs t) ivs fs = false)) := by
  refine ⟨?_, ?_, ?_⟩
  · intro q t rs ds h
    rw [qualityStage] at h
    obtain ⟨col, hcol, h⟩ := bind_eq_ok h
    obtain ⟨thr, hthr, h⟩ := bind_eq_ok h
    refine ⟨col, thr, hcol, hthr, fun r => ?_⟩
    rw [scanDrops_mem h r]
    constructor
    · rintro ⟨hmem, hp⟩
      refine ⟨hmem, ?_⟩
      cases hg : getCell t.cols .TRACK_MEAN_QUALITY r with
      | none => rw [hg] at hp; simp at hp
      | some v =>
        rw [hg] at hp
        have hq : PyFloat.lt v thr = false := by simpa using hp
        exact ⟨v, rfl, hq⟩
    · rintro ⟨hmem, v, hg, hlt⟩
      refine ⟨hmem, ?_⟩
      rw [hg]
      simp [hlt]
  · intro sq fs st t rs ds h
    rw [stdStage] at h
    by_cases hlen : fs.length < t.cols.length
    · rw [if_pos hlen] at h; cases h
    · rw [if_neg hlen] at h
      intro r
      rw [scanDrops_mem h r]
      constructor
      · rintro ⟨hmem, hp⟩
        refine ⟨hmem, ?_⟩
        cases hd : stdRowDrop st r.cells (std_mean_values fs t)
            (std_std_values sq fs t) fs with
        | false => rfl
        | true => rw [hd] at hp; cases hp
      · rintro ⟨hmem, hd⟩
        exact ⟨hmem, by rw [hd]⟩
  · intro fs st t rs ds h
    rw [iqrStage] at h
    obtain ⟨ivs, hivs, h⟩ := bind_eq_ok h
    refine ⟨ivs, hivs, fun r => ?_⟩
    rw [scanDrops_mem h r]
    constructor
    · rintro ⟨hmem, hp⟩
      refine ⟨hmem, ?_⟩
      cases hd : iqrRowDrop st r.cells (iqr_mean_values fs t) ivs fs with
      | false => rfl
      | true => rw [hd] at hp; cases hp
    · rintro ⟨hmem, hd⟩
      exact ⟨hmem, by rw [hd]⟩

/-- C6 witness: the quality stage on the concrete table `qtab` (entry
percentile `2`), with the survival equivalence instantiated from the
theorem. -/
theorem c6_witness :
    qualityStage 50 qtab = .ok ([qrow 1 3], [⟨0, .num 1, .QUALITY_PERCENTILE⟩]) ∧
    ∃ col thr, getColE qtab .TRACK_MEAN_QUALITY = .ok col ∧
      np_percentile col 50 = .ok thr ∧
      ∀ r, r ∈ [qrow 1 3] ↔ (r ∈ qtab.rows ∧
        ∃ v, getCell qtab.cols .TRACK_MEAN_QUALITY r = some v ∧
          PyFloat.lt v thr = false) :=
  ⟨by with_unfolding_all decide,
   (c6_stage_thresholds_fixed_at_entry).1 50 qtab [qrow 1 3]
     [⟨0, .num 1, .QUALITY_PERCENTILE⟩] (by with_unfolding_all decide)⟩

/-- C5 amended: re-running a guarded stage whose per-row predicate is a
fixed function of the row (the duration, speed, displacement and
linearity stages — their thresholds do not depend on the table) on the
stage's own guarded output changes nothing: the guarded result is the
same table, and when the guard did not fire the second pass keeps every
row and emits no drop record.  (The quality/std/IQR stages recompute
their statistics from the current table, and the counterexample shows
they are not idempotent.) -/
theorem c5_amended_fixed_predicate_stage_idempotent
    (cols : List ColName) (reason : DropReason)
    (p : Row → Except PyExc Bool) (t : Table) (rs : List Row)
    (ds : List DropRec) (h : scanDrops cols reason p t.rows = .ok (rs, ds)) :
    ∃ rs2 ds2,
      scanDrops cols reason p (guard t ⟨t.cols, rs⟩).rows = .ok (rs2, ds2) ∧
      guard (guard t ⟨t.cols, rs⟩) ⟨(guard t ⟨t.cols, rs⟩).cols, rs2⟩ =
        guard t ⟨t.cols, rs⟩ ∧
      (rs ≠ [] → rs2 = rs ∧ ds2 = []) := by
  by_cases hrs : rs = []
  · subst hrs
    have hg : guard t ⟨t.cols, []⟩ = t := by
      rw [guard, if_pos rfl]
    refine ⟨[], ds, ?_, ?_, fun hc => absurd rfl hc⟩
    · rw [hg]
      exact h
    · rw [hg]
      exact hg
  · have hkeep : ∀ r ∈ rs, p r = .ok false :=
      fun r hr => ((scanDrops_mem h r).mp hr).2
    have h2 : scanDrops cols reason p rs = .ok (rs, []) :=
      scanDrops_all_keep hkeep
    refine ⟨rs, [], ?_, ?_, fun _ => ⟨rfl, rfl⟩⟩
    · rw [guard, if_neg hrs]
      exact h2
    · rw [guard, if_neg hrs]
      rw [guard, if_neg hrs]

/-- C5 amended witness: the speed stage (threshold 1) on `qtab` keeps
both rows; re-running the guarded stage on the guarded output keeps
everything and records no further drop. -/
theorem c5_amended_witness :
    ∃ rs2 ds2,
      scanDrops col_names .SPEED_THRESHOLD
        (speedDrop col_names (.num 1))
        (guard qtab ⟨qtab.cols, [qrow 0 1, qrow 1 3]⟩).rows = .ok (rs2, ds2) ∧
      guard (guard qtab ⟨qtab.cols, [qrow 0 1, qrow 1 3]⟩)
          ⟨(guard qtab ⟨qtab.cols, [qrow 0 1, qrow 1 3]⟩).cols, rs2⟩ =
        guard qtab ⟨qtab.cols, [qrow 0 1, qrow 1 3]⟩ ∧
      ([qrow 0 1, qrow 1 3] ≠ ([] : List Row) → rs2 = [qrow 0 1, qrow 1 3] ∧ ds2 = []) :=
  c5_amended_fixed_predicate_stage_idempotent col_names .SPEED_THRESHOLD
    (speedDrop col_names (.num 1)) qtab [qrow 0 1, qrow 1 3] []
    (by with_unfolding_all decide)

/-- C4: the control condition (index 0, control present) is processed by
`do_file` with all three thresholds `0.0`, and the loop then continues
on the remaining conditions with the state holding exactly
`speedThreshold = array[0][5] + brownian_multiplier · std_array[0][5]`,
`displacementThreshold = array[0][0]`, `linearityThreshold =
array[0][6]` — where `array[0]` / `std_array[0]` are the stored control
summary rows, whose slots 0, 5, 6 are by construction the control's
per-column means (and std) of TRACK_DISPLACEMENT,
MEAN_STRAIGHT_LINE_SPEED and LINEARITY_OF_FORWARD_PROGRESSION (third
conjunct); every later iteration passes this state unchanged to
`do_file` (second conjunct). -/
theorem c4_control_zero_thresholds_derive_baseline (cfg : Config)
    (c : Except PyExc Table) (rest : List (Except PyExc Table))
    (r : DoFileResult) (row stdRow : List PyFloat)
    (h1 : do_file cfg c (.num 0) (.num 0) (.num 0) = .ok r)
    (h2 : storeFixed 10 r.output_data = .ok row)
    (h3 : storeFixed 7 r.output_std = .ok stdRow) :
    runConditions cfg true (c :: rest) =
      (do
        let rest2 ← runConditionsGo cfg true 1
          ⟨row.getD 0 .nan,
           (row.getD 5 .nan).add
             ((PyFloat.num cfg.brownian_multiplier).mul (stdRow.getD 5 .nan)),
           row.getD 6 .nan⟩ rest
        .ok ((row, stdRow) :: rest2)) ∧
    (∀ (i : Nat) (st : RunState) (inp : Except PyExc Table)
        (rest2 : List (Except PyExc Table)),
      runConditionsGo cfg true (i + 1) st (inp :: rest2) =
        (do
          let r2 ← do_file cfg inp st.brownian_displacement_threshold
            st.brownian_speed_threshold st.brownian_linearity_threshold
          let row2 ← storeFixed 10 r2.output_data
          let std2 ← storeFixed 7 r2.output_std
          let rest3 ← runConditionsGo cfg true (i + 2) st rest2
          .ok ((row2, std2) :: rest3))) ∧
    (∀ (rows : List Row) (init : Nat), rows ≠ [] →
      ∃ od os, summarize cfg ⟨col_names, rows⟩ init = .ok (od, os) ∧
        od.getD 0 none = some (np_mean (colValsAt ⟨col_names, rows⟩ 0)) ∧
        od.getD 5 none = some (np_mean (colValsAt ⟨col_names, rows⟩ 5)) ∧
        od.getD 6 none = some (np_mean (colValsAt ⟨col_names, rows⟩ 6)) ∧
        os.getD 5 none = some (np_std cfg.sqrt (colValsAt ⟨col_names, rows⟩ 5))) := by
  refine ⟨?_, ?_, ?_⟩
  · rw [runConditions, runConditionsGo, if_pos ⟨rfl, rfl⟩, h1]
    simp only [ok_bind]
    rw [h2]
    simp only [ok_bind]
    rw [h3]
    simp only [ok_bind]
  · intro i st inp rest2
    rw [runConditionsGo, if_neg (fun hand => Nat.succ_ne_zero i hand.1)]
    have hst : (if i + 1 = 0 ∧ cfg.do_speed_thresh_fallback then
        { st with brownian_speed_threshold :=
            PyFloat.num cfg.brownian_speed_threshold_fallback }
        else st) = st :=
      if_neg (fun hand => Nat.succ_ne_zero i hand.1)
    rw [hst]
  · intro rows init hrows
    have hne : ¬ (rows.length = 0) := by
      simpa [List.length_eq_zero] using hrows
    have hmeans : exceptMap (fun c => do
        let col ← getColE ⟨col_names, rows⟩ c
        .ok (np_mean col)) col_names =
        .ok [np_mean (colValsAt ⟨col_names, rows⟩ 0),
             np_mean (colValsAt ⟨col_names, rows⟩ 1),
             np_mean (colValsAt ⟨col_names, rows⟩ 2),
             np_mean (colValsAt ⟨col_names, rows⟩ 3),
             np_mean (colValsAt ⟨col_names, rows⟩ 4),
             np_mean (colValsAt ⟨col_names, rows⟩ 5),
             np_mean (colValsAt ⟨col_names, rows⟩ 6)] := by
      with_unfolding_all rfl
    have hstds : exceptMap (fun c => do
        let col ← getColE ⟨col_names, rows⟩ c
        .ok (np_std cfg.sqrt col)) col_names =
        .ok [np_std cfg.sqrt (colValsAt ⟨col_names, rows⟩ 0),
             np_std cfg.sqrt (colValsAt ⟨col_names, rows⟩ 1),
             np_std cfg.sqrt (colValsAt ⟨col_names, rows⟩ 2),
             np_std cfg.sqrt (colValsAt ⟨col_names, rows⟩ 3),
             np_std cfg.sqrt (colValsAt ⟨col_names, rows⟩ 4),
             np_std cfg.sqrt (colValsAt ⟨col_names, rows⟩ 5),
             np_std cfg.sqrt (colValsAt ⟨col_names, rows⟩ 6)] := by
      with_unfolding_all rfl
    refine ⟨[some (np_mean (colValsAt ⟨col_names, rows⟩ 0)),
             some (np_mean (colValsAt ⟨col_names, rows⟩ 1)),
             some (np_mean (colValsAt ⟨col_names, rows⟩ 2)),
             some (np_mean (colValsAt ⟨col_names, rows⟩ 3)),
             some (np_mean (colValsAt ⟨col_names, rows⟩ 4)),
             some (np_mean (colValsAt ⟨col_names, rows⟩ 5)),
             some (np_mean (colValsAt ⟨col_names, rows⟩ 6)),
             some (.num (init : ℚ)), some (.num (rows.length : ℚ)),
             some ((np_mean (colValsAt ⟨col_names, rows⟩ 5)).mul
               (.num conversion))],
            [some (np_std cfg.sqrt (colValsAt ⟨col_names, rows⟩ 0)),
             some (np_std cfg.sqrt (colValsAt ⟨col_names, rows⟩ 1)),
             some (np_std cfg.sqrt (colValsAt ⟨col_names, rows⟩ 2)),
             some (np_std cfg.sqrt (colValsAt ⟨col_names, rows⟩ 3)),
             some (np_std cfg.sqrt (colValsAt ⟨col_names, rows⟩ 4)),
             some (np_std cfg.sqrt (colValsAt ⟨col_names, rows⟩ 5)),
             some (np_std cfg.sqrt (colValsAt ⟨col_names, rows⟩ 6))],
            ?_, rfl, rfl, rfl, rfl⟩
    rw [summarize, hmeans]
    simp only [ok_bind]
    rw [hstds]
    simp only [ok_bind]
    rw [if_neg hne]
    rfl

/-- C4 witness: the control-first loop on the single condition
`ctlTable`, with the baseline state instantiated from the control
summary by the theorem. -/
theorem c4_witness :
    runConditions cfgOff true [.ok ctlTable] =
      (do
        let rest2 ← runConditionsGo cfgOff true 1
          ⟨ctlRow.getD 0 .nan,
           (ctlRow.getD 5 .nan).add
             ((PyFloat.num cfgOff.brownian_multiplier).mul
               (ctlStd.getD 5 .nan)),
           ctlRow.getD 6 .nan⟩ []
        .ok ((ctlRow, ctlStd) :: rest2)) :=
  (c4_control_zero_thresholds_derive_baseline cfgOff (.ok ctlTable) []
    ctlRes ctlRow ctlStd (by with_unfolding_all decide)
    (by with_unfolding_all decide) (by with_unfolding_all decide)).1

/-- C7 amended: for a condition whose final filtered table has zero
rows, the summary reports every per-column MEAN as missing (`None`) and
the converted-speed slot as `None`, still reports the initial and final
row counts, but reports every per-column standard deviation as `nan`
(numpy's result on an empty column), NOT as `None` — nothing is raised
in any case. -/
theorem c7_amended_empty_summary_means_none_stds_nan (cfg : Config)
    (t : Table) (init : Nat) (od os : List (Option PyFloat))
    (hcols : t.cols = col_names) (hrows : t.rows = [])
    (h : summarize cfg t init = .ok (od, os)) :
    (∀ i, i < 7 → od.getD i (some .nan) = none) ∧
    od.getD 9 (some .nan) = none ∧
    od.getD 7 none = some (.num (init : ℚ)) ∧
    od.getD 8 none = some (.num 0) ∧
    os = List.replicate 7 (some PyFloat.nan) := by
  obtain ⟨cols, rows⟩ := t
  simp only at hcols hrows
  subst hcols
  subst hrows
  have hs : summarize cfg ⟨col_names, []⟩ init =
      .ok ([none, none, none, none, none, none, none,
            some (.num (init : ℚ)), some (.num 0), none],
           List.replicate 7 (some PyFloat.nan)) := by
    with_unfolding_all rfl
  have heq := hs.symm.trans h
  injection heq with hpair
  injection hpair with hod hos
  subst hod
  subst hos
  refine ⟨?_, rfl, rfl, rfl, rfl⟩
  intro i hi
  interval_cases i <;> rfl

/-- C7 amended witness: the empty-table summary at initial count 5. -/
theorem c7_amended_witness :
    (∀ i, i < 7 →
      ([none, none, none, none, none, none, none,
        some (PyFloat.num (5 : ℚ)), some (PyFloat.num 0), none] :
          List (Option PyFloat)).getD i (some .nan) = none) ∧
    ([none, none, none, none, none, none, none,
      some (PyFloat.num (5 : ℚ)), some (PyFloat.num 0), none] :
        List (Option PyFloat)).getD 9 (some .nan) = none ∧
    ([none, none, none, none, none, none, none,
      some (PyFloat.num (5 : ℚ)), some (PyFloat.num 0), none] :
        List (Option PyFloat)).getD 7 none = some (.num ((5 : Nat) : ℚ)) ∧
    ([none, none, none, none, none, none, none,
      some (PyFloat.num (5 : ℚ)), some (PyFloat.num 0), none] :
        List (Option PyFloat)).getD 8 none = some (.num 0) ∧
    (List.replicate 7 (some PyFloat.nan) : List (Option PyFloat)) =
      List.replicate 7 (some PyFloat.nan) :=
  c7_amended_empty_summary_means_none_stds_nan cfgOff ⟨col_names, []⟩ 5
    [none, none, none, none, none, none, none,
     some (PyFloat.num (5 : ℚ)), some (PyFloat.num 0), none]
    (List.replicate 7 (some PyFloat.nan)) rfl rfl
    (by with_unfolding_all decide)

/-- C9 amended: `TRACK_DURATION` is effectively REQUIRED.  For every
configuration and thresholds, `do_file` on a table holding exactly the
seven required metric columns fails with `KeyError`: the unconditional
null-filtering loop indexes the missing duration label on the first
data row, and even when no data row remains after the metadata drop the
later `drop(labels=['TRACK_DURATION'])` raises it instead (as does the
metadata-row drop itself on a short table). -/
theorem c9_amended_missing_duration_always_keyerror (cfg : Config)
    (d s l : PyFloat) (t : Table) (hcols : t.cols = col_names) :
    do_file cfg (.ok t) d s l = .error .keyError := by
  obtain ⟨cols, rows⟩ := t
  simp only at hcols
  subst hcols
  have hchk : checkCols col_names = true := by with_unfolding_all rfl
  rw [do_file]
  simp only [hchk, Bool.not_true, Bool.false_eq_true, if_false]
  rcases Nat.lt_or_ge rows.length 3 with hlt | hge
  · rw [if_pos hlt]
  · rw [if_neg (Nat.not_lt.mpr hge)]
    cases hdrop : rows.drop 3 with
    | nil =>
      have hfp : filter_pipeline cfg d s l ⟨col_names, []⟩ =
          .error .keyError := by
        rw [filter_pipeline]
        cases hd : cfg.do_duration_thresh <;> with_unfolding_all rfl
      rw [hfp]
      rfl
    | cons r0 rs0 =>
      with_unfolding_all rfl

/-- Duration-cell access on an aligned `cols8` row: column index 7. -/
theorem getCell_dur8 {r : Row} (h : r.cells.length = 8) :
    getCell cols8 .TRACK_DURATION r = some (r.cells.getD 7 .nan) := by
  rw [getCell]
  have hidx : colIndex cols8 .TRACK_DURATION = some 7 := by
    with_unfolding_all rfl
  rw [hidx]
  cases hg : r.cells.get? 7 with
  | none =>
    have := List.get?_eq_none.mp hg
    omega
  | some c =>
    have hd : r.cells.getD 7 .nan = c := by
      rw [List.getD_eq_getElem?_getD, ← List.get?_eq_getElem?, hg]
      rfl
    show r.cells.get? 7 = some (r.cells.getD 7 .nan)
    rw [hd]
    exact hg

/-- Null filtering over aligned `cols8` rows is the filter keeping the
rows whose duration cell is not `nan`. -/
theorem nullFilter_cols8 {rows : List Row}
    (h : ∀ r ∈ rows, r.cells.length = 8) :
    nullFilter cols8 rows =
      .ok (rows.filter (fun r => !(r.cells.getD 7 .nan).isNan)) := by
  induction rows with
  | nil => rfl
  | cons r0 rs ih =>
    have hcell := getCell_dur8 (h r0 (List.mem_cons_self _ _))
    rw [nullFilter, hcell, ih (fun r hr => h r (List.mem_cons_of_mem _ hr))]
    simp only [ok_bind]
    rw [List.filter_cons]
    cases hnan : (r0.cells.getD 7 .nan).isNan with
    | true => rfl
    | false => rfl

/-- C9 amended witness: the failure at a concrete seven-column table
with one data row, via the amended theorem. -/
theorem c9_amended_witness :
    do_file cfgOff (.ok ⟨col_names, [qrow 0 1, qrow 1 1, qrow 2 1, qrow 3 1]⟩)
      (.num 0) (.num 0) (.num 0) = .error .keyError :=
  c9_amended_missing_duration_always_keyerror cfgOff (.num 0) (.num 0)
    (.num 0) ⟨col_names, [qrow 0 1, qrow 1 1, qrow 2 1, qrow 3 1]⟩ rfl

set_option maxHeartbeats 3200000 in
/-- C10: rows whose `TRACK_DURATION` is `nan` are removed by the
unconditional null-filtering pass (lines 258-261) before the first
guarded stage, even with duration thresholding (and every other stage)
disabled: the run succeeds, the written table's rows are exactly the
non-`nan`-duration rows (duration column dropped), NO drop record is
emitted for the removed rows, and the reported initial count still
includes them.  No guard protects this pass: when every duration is
`nan` the final table is simply empty (see the witness). -/
theorem c10_nan_duration_rows_silently_removed (cfg : Config)
    (d s l : PyFloat) (t : Table)
    (hdur : cfg.do_duration_thresh = false)
    (hsp : cfg.do_speed_thresh = false)
    (hdisp : cfg.do_displacement_thresh = false)
    (hlin : cfg.do_linearity_thresh = false)
    (hq : cfg.do_quality_percentile_filter = false)
    (hstd : cfg.std_drop_flags = none)
    (hiqr : cfg.iqr_drop_flags = none)
    (hcols : t.cols = cols8)
    (hcells : ∀ r ∈ t.rows, r.cells.length = 8)
    (hlen : 3 ≤ t.rows.length) :
    (do_file cfg (.ok t) d s l).map
      (fun res => (res.table.map (fun ft => ft.rows), res.drops,
        res.output_data.getD 7 none)) =
    .ok (some (((t.rows.drop 3).filter
        (fun r => !(r.cells.getD 7 .nan).isNan)).map
      (fun r => ⟨r.id, r.cells.eraseIdx 7⟩)), [],
      some (.num ((t.rows.drop 3).length : ℚ))) := by
  obtain ⟨cols, rows⟩ := t
  simp only at hcols hcells hlen
  subst hcols
  have hchk : checkCols cols8 = true := by with_unfolding_all rfl
  rw [do_file]
  simp only [hchk, Bool.not_true, Bool.false_eq_true, if_false]
  rw [if_neg (Nat.not_lt.mpr hlen)]
  have hnull := @nullFilter_cols8 (rows.drop 3)
    (fun r hr => hcells r (List.mem_of_mem_drop hr))
  rw [filter_pipeline]
  dsimp only
  rw [hnull]
  simp only [ok_bind, hdur, hsp, hdisp, hlin, hq, hstd, hiqr]
  cases hkept : (rows.drop 3).filter
      (fun r => !(r.cells.getD 7 .nan).isNan) with
  | nil => with_unfolding_all rfl
  | cons k0 ks => with_unfolding_all rfl

/-- C10 witness: both data rows have `nan` duration; the run succeeds
with an EMPTY final table (no guard reverts the null filtering), no
drop record, and initial count 2. -/
theorem c10_witness :
    (do_file cfgOff
      (.ok ⟨cols8, [hdr 0, hdr 1, hdr 2,
        mk8 3 (.num 1) (.num 1) .nan, mk8 4 (.num 1) (.num 1) .nan]⟩)
      (.num 0) (.num 0) (.num 0)).map
      (fun res => (res.table.map (fun ft => ft.rows), res.drops,
        res.output_data.getD 7 none)) =
    .ok (some ((([hdr 0, hdr 1, hdr 2,
        mk8 3 (.num 1) (.num 1) .nan,
        mk8 4 (.num 1) (.num 1) .nan].drop 3).filter
        (fun r => !(r.cells.getD 7 PyFloat.nan).isNan)).map
      (fun r => ⟨r.id, r.cells.eraseIdx 7⟩)), [],
      some (.num (([hdr 0, hdr 1, hdr 2,
        mk8 3 (.num 1) (.num 1) .nan,
        mk8 4 (.num 1) (.num 1) .nan].drop 3).length : ℚ))) :=
  c10_nan_duration_rows_silently_removed cfgOff (.num 0) (.num 0) (.num 0)
    ⟨cols8, [hdr 0, hdr 1, hdr 2,
      mk8 3 (.num 1) (.num 1) .nan, mk8 4 (.num 1) (.num 1) .nan]⟩
    rfl rfl rfl rfl rfl rfl rfl rfl (by decide) (by decide)

end Filterer

